import Mathlib

/-!
Shallow embedding of the icms poll-transform-forward pipeline (src/icms.py).

The pipeline polls a journal API over a sliding time window, reshapes each
raw record into a flat schema, and forwards the batch to an ingestion
endpoint.  Pure functions of the source are translated directly; the
network-facing steps are modelled by passing their outcomes in explicitly.
Fallible Python code (code that can raise) is modelled with Except String.
-/

/-- Model of the JSON-like values handled by the pipeline.  Numbers are
modelled as integers, which covers every field the program manipulates;
objects are association lists with unique keys, matching parsed JSON. -/
inductive JVal where
  | null
  | bool (b : Bool)
  | num (n : Int)
  | str (s : String)
  | arr (xs : List JVal)
  | obj (kvs : List (String × JVal))

/-- Python d.get(k, default): defined on dicts only; any other receiver
raises AttributeError, modelled as an error result. -/
def dictGet (v : JVal) (k : String) (dflt : JVal) : Except String JVal :=
  match v with
  | .obj kvs => .ok ((List.lookup k kvs).getD dflt)
  | _ => .error "AttributeError: get"

/-- Python truthiness of a JSON value: None, empty string, zero and empty
containers are falsy, everything else truthy. -/
def truthy : JVal → Bool
  | .null => false
  | .bool b => b
  | .num n => n != 0
  | .str s => s != ""
  | .arr xs => !xs.isEmpty
  | .obj kvs => !kvs.isEmpty

/-- Civil (calendar) date-time: year, month, day, hour, minute, second. -/
structure Civil where
  year : Int
  month : Nat
  day : Nat
  hour : Nat
  minute : Nat
  second : Nat
deriving DecidableEq

def digitVal (c : Char) : Option Nat :=
  if c.isDigit then some (c.toNat - 48) else none

/-- Four mandatory digits, as the strptime directive for the year demands. -/
def parseFour : List Char → Option (Nat × List Char)
  | a :: b :: c :: d :: rest =>
    match digitVal a, digitVal b, digitVal c, digitVal d with
    | some w, some x, some y, some z => some (w * 1000 + x * 100 + y * 10 + z, rest)
    | _, _, _, _ => none
  | _ => none

/-- A one-or-two digit numeric field in the style of the strptime regular
expressions: a two-digit reading is taken when its value lies in lo..hi,
otherwise a single digit is taken when it is at least oneLo. -/
def parseTwo (lo hi oneLo : Nat) : List Char → Option (Nat × List Char)
  | a :: b :: rest =>
    match digitVal a, digitVal b with
    | some x, some y =>
      let v := 10 * x + y
      if lo ≤ v ∧ v ≤ hi then some (v, rest)
      else if oneLo ≤ x then some (x, b :: rest) else none
    | some x, none => if oneLo ≤ x then some (x, b :: rest) else none
    | none, _ => none
  | [a] =>
    match digitVal a with
    | some x => if oneLo ≤ x then some (x, []) else none
    | none => none
  | [] => none

def expectChar (c : Char) : List Char → Option (List Char)
  | [] => none
  | x :: rest => if x = c then some rest else none

def isLeapYear (y : Nat) : Bool :=
  y % 4 == 0 && (y % 100 != 0 || y % 400 == 0)

def daysInMonth (y m : Nat) : Nat :=
  if m = 2 then (if isLeapYear y then 29 else 28)
  else if m = 4 ∨ m = 6 ∨ m = 9 ∨ m = 11 then 30 else 31

/-- Model of datetime.strptime(s, pattern) for the fixed pattern
YYYY-MM-DDTHH:MM:SS: the whole string must match, fields are validated,
and the resulting calendar date must exist (as the datetime constructor
checks); a failed parse is a ValueError in the source. -/
def parseTs (s : String) : Option Civil := do
  let (y, r1) ← parseFour s.data
  let r2 ← expectChar '-' r1
  let (mo, r3) ← parseTwo 1 12 1 r2
  let r4 ← expectChar '-' r3
  let (d, r5) ← parseTwo 1 31 1 r4
  let r6 ← expectChar 'T' r5
  let (h, r7) ← parseTwo 0 23 0 r6
  let r8 ← expectChar ':' r7
  let (mi, r9) ← parseTwo 0 59 0 r8
  let r10 ← expectChar ':' r9
  let (se, r11) ← parseTwo 0 59 0 r10
  if r11 = [] ∧ 1 ≤ y ∧ d ≤ daysInMonth y mo then
    some ⟨(y : Int), mo, d, h, mi, se⟩
  else none

/-- Days since 1970-01-01 of a proleptic Gregorian calendar date
(the civil-from-days algorithm used by every datetime library). -/
def daysFromCivil (y : Int) (m d : Nat) : Int :=
  let yy : Int := if m ≤ 2 then y - 1 else y
  let era : Int := Int.fdiv yy 400
  let yoe : Int := yy - era * 400
  let mp : Int := if m ≤ 2 then (m : Int) + 9 else (m : Int) - 3
  let doy : Int := Int.fdiv (153 * mp + 2) 5 + (d : Int) - 1
  let doe : Int := yoe * 365 + Int.fdiv yoe 4 - Int.fdiv yoe 100 + doy
  era * 146097 + doe - 719468

/-- Inverse of daysFromCivil: the calendar date of a day count. -/
def civilFromDays (z0 : Int) : Int × Nat × Nat :=
  let z := z0 + 719468
  let era := Int.fdiv z 146097
  let doe : Nat := (z - era * 146097).toNat
  let yoe : Nat := (doe - doe / 1460 + doe / 36524 - doe / 146096) / 365
  let doy : Nat := doe - (365 * yoe + yoe / 4 - yoe / 100)
  let mp : Nat := (5 * doy + 2) / 153
  let d : Nat := doy - (153 * mp + 2) / 5 + 1
  let m : Nat := if mp < 10 then mp + 3 else mp - 9
  let y : Int := (yoe : Int) + era * 400
  (if m ≤ 2 then y + 1 else y, m, d)

/-- Calendar fields of an epoch instant (seconds since 1970-01-01T00:00:00
in the reference offset). -/
def civilOfEpoch (t : Int) : Civil :=
  let days := Int.fdiv t 86400
  let sod : Nat := (t - days * 86400).toNat
  let c := civilFromDays days
  ⟨c.1, c.2.1, c.2.2, sod / 3600, sod % 3600 / 60, sod % 60⟩

/-- Epoch seconds of a calendar date-time. -/
def epochOfCivil (c : Civil) : Int :=
  daysFromCivil c.year c.month c.day * 86400
    + ((c.hour * 3600 + c.minute * 60 + c.second : Nat) : Int)

def padTwo (n : Nat) : String :=
  if n < 10 then "0" ++ toString n else toString n

def padFour (n : Nat) : String :=
  if n < 10 then "000" ++ toString n
  else if n < 100 then "00" ++ toString n
  else if n < 1000 then "0" ++ toString n
  else toString n

def fmtYear (y : Int) : String :=
  if y < 0 then "-" ++ padFour y.natAbs else padFour y.toNat

/-- Model of strftime with the fixed pattern YYYY-MM-DDTHH:MM:SS. -/
def fmtTs (c : Civil) : String :=
  fmtYear c.year ++ "-" ++ padTwo c.month ++ "-" ++ padTwo c.day ++ "T"
    ++ padTwo c.hour ++ ":" ++ padTwo c.minute ++ ":" ++ padTwo c.second

/-- get_time_range of the source: the current instant in the configured
offset is the end of the window; the start lies minutes earlier; both are
rendered by strftime.  The current UTC instant now and the configured
offset tzOff are passed explicitly (seconds). -/
def get_time_range (minutes now tzOff : Int) : String × String :=
  let endEpoch := now + tzOff
  let startEpoch := endEpoch - minutes * 60
  (fmtTs (civilOfEpoch startEpoch), fmtTs (civilOfEpoch endEpoch))

/-- Python str.join with separator ampersand. -/
def amp_join : List String → String
  | [] => ""
  | [s] => s
  | s :: rest => s ++ "&" ++ amp_join rest

/-- build_query_url of the source: plain string interpolation, one qc=
fragment per condition, no escaping of any component. -/
def build_query_url (base_url qa stripmeta : String) (qc_list : List String) : String :=
  let qc_query := amp_join (qc_list.map (fun qc => "qc=" ++ qc))
  base_url ++ "?qa=" ++ qa ++ "&stripmeta=" ++ stripmeta ++ "&" ++ qc_query

/-- Chained lookup attrs.get(k, dict()).get(datavalue key): the missing
field defaults to an empty dict, whose datavalue lookup defaults to None. -/
def getAttr (attrs : JVal) (k : String) : Except String JVal := do
  let w ← dictGet attrs k (.obj [])
  dictGet w "datavalue" .null

/-- Python str.replace with the literal DOC: and an empty replacement:
every non-overlapping occurrence is removed in one left-to-right pass. -/
def replaceDocChars : List Char → List Char
  | 'D' :: 'O' :: 'C' :: ':' :: rest => replaceDocChars rest
  | c :: rest => c :: replaceDocChars rest
  | [] => []

def pyReplaceDoc (s : String) : String :=
  String.mk (replaceDocChars s.data)

/-- The document-number extraction: defaults to the empty string and then
strips every occurrence of the DOC: literal (Python str.replace removes
all non-overlapping occurrences left to right); calling replace on a
non-string raises. -/
def getDocNumber (attrs : JVal) : Except String String := do
  let w ← dictGet attrs "DOC_NUMBER" (.obj [])
  let v ← dictGet w "datavalue" (.str "")
  match v with
  | .str s => .ok (pyReplaceDoc s)
  | _ => .error "AttributeError: replace"

/-- One timestamp field: a falsy value is skipped; a truthy value must be a
string in the expected pattern, parsed and converted to epoch seconds with
the ambient local offset loff (datetime.timestamp on a naive value uses
the process-local clock); anything else raises. -/
def tsValue (loff : Int) (v : JVal) : Except String (Option Int) :=
  if truthy v then
    match v with
    | .str s =>
      match parseTs s with
      | some c => .ok (some (epochOfCivil c - loff))
      | none => .error "ValueError: time data does not match format"
    | _ => .error "TypeError: strptime argument"
  else .ok none

def tsEntry (k : String) : Option Int → List (String × JVal)
  | some n => [(k, .num n)]
  | none => []

/-- Transformation of one raw record, in the evaluation order of the
source: the attributes wrapper, the twelve projected scalars (with the two
injected static tags), then the three optional timestamp fields. -/
def transformRecord (host service : String) (loff : Int) (record : JVal) :
    Except String (List (String × JVal)) := do
  let attrs ← dictGet record "attributes" (.obj [])
  let jid ← getAttr attrs "DATADOG_JOURNAL_ID"
  let doc ← getDocNumber attrs
  let mid ← getAttr attrs "MESSAGE_ID"
  let mty ← getAttr attrs "MESSAGE_TYPE"
  let mdi ← getAttr attrs "MESSAGE_DIRECTION"
  let rti ← getAttr attrs "RESPONSE_TIME"
  let sta ← getAttr attrs "STATUS"
  let rej ← getAttr attrs "REJECT_REASON"
  let hn ← getAttr attrs "HOST_NAME"
  let phn ← getAttr attrs "PUBLIC_HOST_NAME"
  let hip ← getAttr attrs "HOST_IP_ADDRESS"
  let phip ← getAttr attrs "PUBLIC_HOST_IP_ADDRESS"
  let dv ← getAttr attrs "DAYTIME"
  let sv ← getAttr attrs "START_TIMESTAMPS"
  let ev ← getAttr attrs "END_TIMESTAMPS"
  let dts ← tsValue loff dv
  let sts ← tsValue loff sv
  let ets ← tsValue loff ev
  pure ([("DATADOG_JOURNAL_ID", jid), ("DOC_NUMBER", .str doc), ("MESSAGE_ID", mid),
         ("MESSAGE_TYPE", mty), ("MESSAGE_DIRECTION", mdi), ("RESPONSE_TIME", rti),
         ("STATUS", sta), ("REJECT_REASON", rej), ("HOST_NAME", hn),
         ("PUBLIC_HOST_NAME", phn), ("HOST_IP_ADDRESS", hip),
         ("PUBLIC_HOST_IP_ADDRESS", phip), ("hostname", .str host), ("service", .str service)]
        ++ tsEntry "DAYTIME" dts ++ tsEntry "START_TIMESTAMPS" sts
        ++ tsEntry "END_TIMESTAMPS" ets)

/-- The transformation loop over the extracted record list: records are
transformed in order and appended; the first failing record aborts. -/
def transformAll (host service : String) (loff : Int) :
    List JVal → Except String (List (List (String × JVal)))
  | [] => pure []
  | r :: rs => do
    let tr ← transformRecord host service loff r
    let rest ← transformAll host service loff rs
    pure (tr :: rest)

/-- transform_response of the source: the record list is extracted with
defaults at each step of the fixed path objects / ZXC_DATADOG_JOURNAL,
then each record is transformed in order.  Iteration over a non-list
journal value is outside the modelled scope and is an error here. -/
def transform_response (host service : String) (loff : Int) (rd : JVal) :
    Except String (List (List (String × JVal))) := do
  let objs ← dictGet rd "objects" (.obj [])
  let records ← dictGet objs "ZXC_DATADOG_JOURNAL" (.arr [])
  match records with
  | .arr xs => transformAll host service loff xs
  | _ => .error "TypeError: not iterable"

/-- Outcome of the POST inside send_to_datadog: either an HTTP response
with a status code was received, or the request raised with an optional
response attached to the exception. -/
inductive PostResult where
  | response (code : Nat)
  | failure (respCode : Option Nat)

/-- Model of response.raise_for_status: codes of 400 and above raise an
HTTPError carrying the response. -/
def raise_for_status (c : Nat) : Except Nat Nat :=
  if 400 ≤ c then .error c else .ok c

/-- send_to_datadog of the source: the POST and raise_for_status run under
a handler for every RequestException; a caught failure yields the status
code of the attached response when there is one and 500 otherwise.  The
function is total: no outcome raises to the caller. -/
def send_to_datadog (r : PostResult) : Nat :=
  match r with
  | .response c =>
    match raise_for_status c with
    | .ok cc => cc
    | .error ec => ec
  | .failure rc => rc.getD 500

/-- Observable side effects of one cycle: the token request, the journal
fetch (with the URL it queries), a file write (raw or transformed), and
the forwarding POST. -/
inductive Event where
  | tokenRequest
  | fetchRequest (url : String)
  | fileWrite (tag : String)
  | forwardRequest

/-- The cycle-scoped inputs of main: static configuration plus the
outcomes of the three network interactions of the cycle. -/
structure CycleEnv where
  writeToFile : Bool
  tokenRes : Except String String
  fetchRes : Except String JVal
  sendRes : PostResult
  host : String
  service : String
  qa : String
  stripmeta : String
  dataUrl : String
  minutes : Int
  now : Int
  tzOff : Int
  loff : Int
  interval : Nat

/-- main of the source as a trace semantics: the emitted side effects in
order, together with the result (the forwarded status code, or the first
uncaught failure).  The step order follows the source: time range, query
conditions, token, query URL, fetch, optional raw write, transform,
optional transformed write, forward. -/
def main_cycle (env : CycleEnv) : List Event × Except String Nat :=
  let tr := get_time_range env.minutes env.now env.tzOff
  let qcList := ["DAYTIME,<=," ++ tr.2, "DAYTIME,>," ++ tr.1]
  match env.tokenRes with
  | .error e => ([Event.tokenRequest], .error e)
  | .ok _ =>
    let url := build_query_url env.dataUrl env.qa env.stripmeta qcList
    match env.fetchRes with
    | .error e => ([Event.tokenRequest, Event.fetchRequest url], .error e)
    | .ok result =>
      let rawWrites := if env.writeToFile then [Event.fileWrite "raw"] else []
      match transform_response env.host env.service env.loff result with
      | .error e => ([Event.tokenRequest, Event.fetchRequest url] ++ rawWrites, .error e)
      | .ok _ =>
        let tWrites := if env.writeToFile then [Event.fileWrite "transformed"] else []
        ([Event.tokenRequest, Event.fetchRequest url] ++ rawWrites ++ tWrites
           ++ [Event.forwardRequest], .ok (send_to_datadog env.sendRes))

/-- Observable steps of one iteration of the outer loop: the cycle events,
an error log line when the cycle failed, and the sleep. -/
inductive LoopEvent where
  | cycle (e : Event)
  | logError (msg : String)
  | sleep (seconds : Nat)

/-- One iteration of the while-True loop: main runs under a catch-all
handler, a failure is logged, and the iteration always reaches the sleep
step; the Boolean records that the loop continues (it always does). -/
def loop_iteration (env : CycleEnv) : List LoopEvent × Bool :=
  let r := main_cycle env
  (r.1.map LoopEvent.cycle
     ++ (match r.2 with | .error e => [LoopEvent.logError e] | .ok _ => [])
     ++ [LoopEvent.sleep env.interval], true)

/-- Truthiness of the raw timestamp value reached through the fixed
attribute path of a record; false when the path is not traversable. -/
def rawTimestampTruthy (record : JVal) (k : String) : Bool :=
  match dictGet record "attributes" (.obj []) with
  | .ok attrs =>
    match getAttr attrs k with
    | .ok v => truthy v
    | .error _ => false
  | .error _ => false

/-- The raw document-number value reached through the fixed attribute
path, with the defaults of the source applied at each step. -/
def docRaw (record : JVal) : Except String JVal := do
  let attrs ← dictGet record "attributes" (.obj [])
  let w ← dictGet attrs "DOC_NUMBER" (.obj [])
  dictGet w "datavalue" (.str "")

/-- Modelled from the words of the spec for comparison: the raw value with
one leading DOC: literal removed and nothing else changed. -/
def stripLeadingDoc (s : String) : String :=
  match s.data with
  | 'D' :: 'O' :: 'C' :: ':' :: rest => String.mk rest
  | _ => s

/-- Whether a string still begins with the DOC: literal. -/
def leadsWithDoc (s : String) : Bool :=
  match s.data with
  | 'D' :: 'O' :: 'C' :: ':' :: _ => true
  | _ => false

/-- The wrapper object of the document-number field, with the default of
the source applied. -/
def docWrapper (record : JVal) : Except String JVal := do
  let attrs ← dictGet record "attributes" (.obj [])
  dictGet attrs "DOC_NUMBER" (.obj [])

/-- The fourteen keys present in every transformed record, in insertion
order: the twelve projected scalars and the two injected static tags. -/
def baseKeys : List String :=
  ["DATADOG_JOURNAL_ID", "DOC_NUMBER", "MESSAGE_ID", "MESSAGE_TYPE",
   "MESSAGE_DIRECTION", "RESPONSE_TIME", "STATUS", "REJECT_REASON",
   "HOST_NAME", "PUBLIC_HOST_NAME", "HOST_IP_ADDRESS",
   "PUBLIC_HOST_IP_ADDRESS", "hostname", "service"]

/-- The scalar fields whose missing raw value renders as null (every
projected scalar except the document number, which defaults to an empty
string). -/
def nullDefaultKeys : List String :=
  ["DATADOG_JOURNAL_ID", "MESSAGE_ID", "MESSAGE_TYPE", "MESSAGE_DIRECTION",
   "RESPONSE_TIME", "STATUS", "REJECT_REASON", "HOST_NAME",
   "PUBLIC_HOST_NAME", "HOST_IP_ADDRESS", "PUBLIC_HOST_IP_ADDRESS"]

/-- Characters of a URL after its first question mark; none without one. -/
def afterQ : List Char → Option (List Char)
  | [] => none
  | c :: cs => if c = '?' then some cs else afterQ cs

/-- Query-string pieces: the characters split at every ampersand. -/
def splitAmp : List Char → List (List Char)
  | [] => [[]]
  | c :: cs =>
    if c = '&' then [] :: splitAmp cs
    else
      match splitAmp cs with
      | [] => [[c]]
      | g :: gs => (c :: g) :: gs

/-- The parameters of a URL: the pieces of its query string. -/
def urlParams (url : String) : List (List Char) :=
  match afterQ url.data with
  | none => []
  | some q => splitAmp q

/-- The key of one query parameter: the characters before its first
equals sign. -/
def paramKeyOf (p : List Char) : List Char :=
  p.takeWhile (fun c => c != '=')

/-- The value of one query parameter: the characters after its first
equals sign. -/
def paramValueOf (p : List Char) : List Char :=
  (p.dropWhile (fun c => c != '=')).drop 1

/-- A raw record of the end-to-end example of the spec: an identifier, a
document number with the DOC: literal, and one timestamp. -/
def cGoodRecord : JVal :=
  .obj [("attributes", .obj
    [("DATADOG_JOURNAL_ID", .obj [("datavalue", .num 7)]),
     ("DOC_NUMBER", .obj [("datavalue", .str "DOC:123")]),
     ("DAYTIME", .obj [("datavalue", .str "2024-01-01T00:00:00")])])]

/-- The transformed record the pipeline produces for cGoodRecord with the
static tags h1 and svc and a zero local offset. -/
def cGoodOut : List (String × JVal) :=
  [("DATADOG_JOURNAL_ID", .num 7), ("DOC_NUMBER", .str "123"),
   ("MESSAGE_ID", .null), ("MESSAGE_TYPE", .null), ("MESSAGE_DIRECTION", .null),
   ("RESPONSE_TIME", .null), ("STATUS", .null), ("REJECT_REASON", .null),
   ("HOST_NAME", .null), ("PUBLIC_HOST_NAME", .null), ("HOST_IP_ADDRESS", .null),
   ("PUBLIC_HOST_IP_ADDRESS", .null), ("hostname", .str "h1"), ("service", .str "svc"),
   ("DAYTIME", .num 1704067200)]

def cGoodPayload : JVal :=
  .obj [("objects", .obj [("ZXC_DATADOG_JOURNAL", .arr [cGoodRecord])])]

def cEmptyPayload : JVal :=
  .obj [("objects", .obj [("ZXC_DATADOG_JOURNAL", .arr [])])]

/-- A record whose timestamp value is present, truthy and malformed. -/
def cBadDaytimeRecord : JVal :=
  .obj [("attributes", .obj [("DAYTIME", .obj [("datavalue", .str "garbage")])])]

def cBadDaytimePayload : JVal :=
  .obj [("objects", .obj [("ZXC_DATADOG_JOURNAL", .arr [cBadDaytimeRecord])])]

/-- A record whose timestamp value is present but empty, hence falsy. -/
def cEmptyDaytimeRecord : JVal :=
  .obj [("attributes", .obj [("DAYTIME", .obj [("datavalue", .str "")])])]

/-- A record whose start timestamp is present and malformed. -/
def cBadStartRecord : JVal :=
  .obj [("attributes", .obj [("START_TIMESTAMPS", .obj [("datavalue", .str "31-12-2024")])])]

def cBadStartPayload : JVal :=
  .obj [("objects", .obj [("ZXC_DATADOG_JOURNAL", .arr [cBadStartRecord])])]

/-- A document number in which removing every DOC: occurrence re-creates
a leading DOC: literal. -/
def cDocRecord : JVal :=
  .obj [("attributes", .obj [("DOC_NUMBER", .obj [("datavalue", .str "DDOC:OC:5")])])]

/-- A cycle environment whose token request fails, with persistence
enabled. -/
def cEnv : CycleEnv :=
  { writeToFile := true, tokenRes := .error "401 Client Error",
    fetchRes := .ok (JVal.obj []), sendRes := .response 202,
    host := "h1", service := "svc", qa := "qa1", stripmeta := "true",
    dataUrl := "http://data", minutes := 5, now := 1700000000,
    tzOff := 28800, loff := 0, interval := 60 }


/-- The transformed record for a raw record whose attributes carry no
usable scalar and no truthy timestamp, with static tags h and s: every
scalar is null except the document number, which is empty. -/
def cDefaultOut : List (String × JVal) :=
  [("DATADOG_JOURNAL_ID", .null), ("DOC_NUMBER", .str ""),
   ("MESSAGE_ID", .null), ("MESSAGE_TYPE", .null), ("MESSAGE_DIRECTION", .null),
   ("RESPONSE_TIME", .null), ("STATUS", .null), ("REJECT_REASON", .null),
   ("HOST_NAME", .null), ("PUBLIC_HOST_NAME", .null), ("HOST_IP_ADDRESS", .null),
   ("PUBLIC_HOST_IP_ADDRESS", .null), ("hostname", .str "h"), ("service", .str "s")]

/-- The transformed record for cDocRecord. -/
def cDocOut : List (String × JVal) :=
  [("DATADOG_JOURNAL_ID", .null), ("DOC_NUMBER", .str "DOC:5"),
   ("MESSAGE_ID", .null), ("MESSAGE_TYPE", .null), ("MESSAGE_DIRECTION", .null),
   ("RESPONSE_TIME", .null), ("STATUS", .null), ("REJECT_REASON", .null),
   ("HOST_NAME", .null), ("PUBLIC_HOST_NAME", .null), ("HOST_IP_ADDRESS", .null),
   ("PUBLIC_HOST_IP_ADDRESS", .null), ("hostname", .str "h"), ("service", .str "s")]

/-- A record with a non-leading DOC: occurrence in its document number. -/
def cNonLeadingDocRecord : JVal :=
  .obj [("attributes", .obj [("DOC_NUMBER", .obj [("datavalue", .str "A-DOC:X-DOC:Y")])])]

/-- The transformed record for cNonLeadingDocRecord. -/
def cNonLeadingDocOut : List (String × JVal) :=
  [("DATADOG_JOURNAL_ID", .null), ("DOC_NUMBER", .str "A-X-Y"),
   ("MESSAGE_ID", .null), ("MESSAGE_TYPE", .null), ("MESSAGE_DIRECTION", .null),
   ("RESPONSE_TIME", .null), ("STATUS", .null), ("REJECT_REASON", .null),
   ("HOST_NAME", .null), ("PUBLIC_HOST_NAME", .null), ("HOST_IP_ADDRESS", .null),
   ("PUBLIC_HOST_IP_ADDRESS", .null), ("hostname", .str "h"), ("service", .str "s")]

/-- A record whose document-number wrapper is present but empty, so the
datavalue lookup falls back to its empty-string default. -/
def cDocEmptyWrapperRecord : JVal :=
  .obj [("attributes", .obj [("DOC_NUMBER", .obj [])])]


theorem exbind_ok {α β : Type} {x : Except String α} {f : α → Except String β} {b : β} :
    x >>= f = Except.ok b ↔ ∃ a, x = Except.ok a ∧ f a = Except.ok b := by
  cases x <;> simp [Bind.bind, Except.bind]

theorem expure_ok {α : Type} {a b : α} :
    (pure a : Except String α) = Except.ok b ↔ a = b := by
  simp [Pure.pure, Except.pure]

theorem tsValue_isSome {loff : Int} {v : JVal} {o : Option Int}
    (h : tsValue loff v = .ok o) : o.isSome = truthy v := by
  unfold tsValue at h
  cases ht : truthy v with
  | false =>
    rw [ht] at h
    simp at h
    subst h
    rfl
  | true =>
    rw [ht] at h
    cases v with
    | str s =>
      simp at h
      cases hp : parseTs s with
      | some c => rw [hp] at h; simp at h; rw [← h]; rfl
      | none => rw [hp] at h; exact absurd h (by simp)
    | null => simp at h
    | bool b => simp at h
    | num n => simp at h
    | arr xs => simp at h
    | obj kvs => simp at h

theorem getAttr_absent {kvs : List (String × JVal)} {k : String}
    (h : List.lookup k kvs = none) : getAttr (.obj kvs) k = .ok .null := by
  simp [getAttr, dictGet, h, Bind.bind, Except.bind, List.lookup]

/-- C2: send_to_datadog is a total function of the forwarding outcome and
returns the status code of the received response, the status code carried
by the failure when one is attached, and 500 otherwise; no outcome raises
to the caller. -/
theorem c2_send_status :
    (∀ c, send_to_datadog (.response c) = c)
    ∧ (∀ c, send_to_datadog (.failure (some c)) = c)
    ∧ send_to_datadog (.failure none) = 500 := by
  refine ⟨fun c => ?_, fun c => rfl, rfl⟩
  unfold send_to_datadog raise_for_status
  by_cases h : 400 ≤ c <;> simp [h]

/-- C6 (amended): for every positive window width, the returned pair
formats the instants now minus the width and now in the configured
offset, and the start instant lies strictly before the end instant.  At
width zero the two instants and the two strings coincide. -/
theorem c6_time_window (m now tz : Int) (hm : 0 < m) :
    get_time_range m now tz
      = (fmtTs (civilOfEpoch (now + tz - m * 60)), fmtTs (civilOfEpoch (now + tz)))
    ∧ now + tz - m * 60 < now + tz :=
  ⟨rfl, by omega⟩

theorem c6_time_window_witness :
    (get_time_range 5 1700000000 28800
      = (fmtTs (civilOfEpoch (1700000000 + 28800 - 5 * 60)),
         fmtTs (civilOfEpoch (1700000000 + 28800))))
    ∧ (1700000000 : Int) + 28800 - 5 * 60 < 1700000000 + 28800 :=
  c6_time_window 5 1700000000 28800 (by decide)

/-- C6 counterexample: with the configured window width zero, the
computation returns the same formatted timestamp for start and end, so
start is not strictly before end. -/
theorem c6_zero_width_counterexample :
    get_time_range 0 0 0 = ("1970-01-01T00:00:00", "1970-01-01T00:00:00")
    ∧ (get_time_range 0 0 0).1 = (get_time_range 0 0 0).2 :=
  ⟨rfl, rfl⟩

/-- C9: a payload missing the top-level objects key, or whose objects
value misses the nested journal key, transforms to an empty batch
without raising. -/
theorem c9_missing_path (h s : String) (loff : Int) (rd : JVal)
    (kvs : List (String × JVal)) (hobj : rd = .obj kvs)
    (hmiss : List.lookup "objects" kvs = none
      ∨ ∃ okvs, List.lookup "objects" kvs = some (.obj okvs)
          ∧ List.lookup "ZXC_DATADOG_JOURNAL" okvs = none) :
    transform_response h s loff rd = .ok [] := by
  subst hobj
  rcases hmiss with hm | ⟨okvs, ho, hj⟩
  · simp [transform_response, dictGet, hm, Bind.bind, Except.bind, transformAll,
      List.lookup, Pure.pure, Except.pure]
  · simp [transform_response, dictGet, ho, hj, Bind.bind, Except.bind, transformAll,
      Pure.pure, Except.pure]

theorem c9_missing_path_witness :
    transform_response "h" "s" 0 (JVal.obj []) = .ok [] :=
  c9_missing_path "h" "s" 0 (JVal.obj []) [] rfl (Or.inl rfl)

/-- C8: when the token request fails, the cycle emits no fetch, no
forward and no file write even with persistence enabled, and the outer
loop logs the failure and proceeds to the sleep step, continuing. -/
theorem c8_token_failure_aborts (env : CycleEnv) (e : String)
    (h : env.tokenRes = .error e) :
    main_cycle env = ([Event.tokenRequest], .error e)
    ∧ loop_iteration env
        = ([LoopEvent.cycle Event.tokenRequest, LoopEvent.logError e,
            LoopEvent.sleep env.interval], true)
    ∧ (∀ u, Event.fetchRequest u ∉ (main_cycle env).1)
    ∧ Event.forwardRequest ∉ (main_cycle env).1
    ∧ (∀ t, Event.fileWrite t ∉ (main_cycle env).1) := by
  have hm : main_cycle env = ([Event.tokenRequest], .error e) := by
    unfold main_cycle; rw [h]
  refine ⟨hm, ?_, fun u => ?_, ?_, fun t => ?_⟩
  · unfold loop_iteration; rw [hm]; rfl
  · rw [hm]; simp
  · rw [hm]; simp
  · rw [hm]; simp

theorem c8_token_failure_aborts_witness :
    main_cycle cEnv = ([Event.tokenRequest], .error "401 Client Error")
    ∧ loop_iteration cEnv
        = ([LoopEvent.cycle Event.tokenRequest, LoopEvent.logError "401 Client Error",
            LoopEvent.sleep cEnv.interval], true) :=
  ⟨(c8_token_failure_aborts cEnv "401 Client Error" rfl).1,
   (c8_token_failure_aborts cEnv "401 Client Error" rfl).2.1⟩

theorem rawTimestampTruthy_eq {record attrs : JVal} {k : String} {v : JVal}
    (ha : dictGet record "attributes" (.obj []) = .ok attrs)
    (hv : getAttr attrs k = .ok v) :
    rawTimestampTruthy record k = truthy v := by
  simp [rawTimestampTruthy, ha, hv]

/-- C1 (amended): on every record the transformation accepts, each of the
three timestamp keys is emitted exactly when the raw value reached
through the fixed path is truthy; an absent or falsy (such as empty)
value leaves the key absent, while a truthy malformed value makes the
transformation raise instead (see the counterexample). -/
theorem c1_ts_emitted (host svc : String) (loff : Int) (record : JVal)
    (rec : List (String × JVal))
    (hrec : transformRecord host svc loff record = .ok rec) :
    ((List.lookup "DAYTIME" rec).isSome = rawTimestampTruthy record "DAYTIME")
    ∧ ((List.lookup "START_TIMESTAMPS" rec).isSome
        = rawTimestampTruthy record "START_TIMESTAMPS")
    ∧ ((List.lookup "END_TIMESTAMPS" rec).isSome
        = rawTimestampTruthy record "END_TIMESTAMPS") := by
  unfold transformRecord at hrec
  simp only [exbind_ok, expure_ok] at hrec
  obtain ⟨attrs, ha, jid, hjid, doc, hdoc, mid, hmid, mty, hmty, mdi, hmdi, rti, hrti,
    sta, hsta, rej, hrej, hn, hhn, phn, hphn, hip, hhip, phip, hphip,
    dv, hdv, sv, hsv, ev, hev, dts, hdts, sts, hsts, ets, hets, heq⟩ := hrec
  subst heq
  have hd := tsValue_isSome hdts
  have hs2 := tsValue_isSome hsts
  have he2 := tsValue_isSome hets
  refine ⟨?_, ?_, ?_⟩
  · rw [rawTimestampTruthy_eq ha hdv, ← hd]
    cases dts <;> cases sts <;> cases ets <;> rfl
  · rw [rawTimestampTruthy_eq ha hsv, ← hs2]
    cases dts <;> cases sts <;> cases ets <;> rfl
  · rw [rawTimestampTruthy_eq ha hev, ← he2]
    cases dts <;> cases sts <;> cases ets <;> rfl

theorem c1_ts_emitted_witness :
    ((List.lookup "DAYTIME" cGoodOut).isSome = rawTimestampTruthy cGoodRecord "DAYTIME")
    ∧ ((List.lookup "START_TIMESTAMPS" cGoodOut).isSome
        = rawTimestampTruthy cGoodRecord "START_TIMESTAMPS")
    ∧ ((List.lookup "END_TIMESTAMPS" cGoodOut).isSome
        = rawTimestampTruthy cGoodRecord "END_TIMESTAMPS") :=
  c1_ts_emitted "h1" "svc" 0 cGoodRecord cGoodOut rfl

/-- C1 counterexample: a present malformed timestamp value makes the
transformation raise instead of returning a record without the key, and
a present empty-string value is skipped without raising even though the
raw field is present. -/
theorem c1_malformed_counterexample :
    transform_response "h" "s" 0 cBadDaytimePayload
      = .error "ValueError: time data does not match format"
    ∧ transformRecord "h" "s" 0 cEmptyDaytimeRecord = .ok cDefaultOut
    ∧ List.lookup "DAYTIME" cDefaultOut = none
    ∧ getAttr (JVal.obj [("DAYTIME", JVal.obj [("datavalue", JVal.str "")])]) "DAYTIME"
        = .ok (JVal.str "") :=
  ⟨rfl, rfl, rfl, rfl⟩

/-- C3: every record the transformation produces carries exactly the
fourteen fixed keys in insertion order followed by the timestamp keys
that were emitted, and a scalar raw field that is absent renders as null
under its key rather than the key being omitted. -/
theorem c3_key_set (host svc : String) (loff : Int) (record : JVal)
    (rec : List (String × JVal))
    (hrec : transformRecord host svc loff record = .ok rec) :
    rec.map Prod.fst = baseKeys
        ++ (if rawTimestampTruthy record "DAYTIME" then ["DAYTIME"] else [])
        ++ (if rawTimestampTruthy record "START_TIMESTAMPS" then ["START_TIMESTAMPS"] else [])
        ++ (if rawTimestampTruthy record "END_TIMESTAMPS" then ["END_TIMESTAMPS"] else [])
    ∧ (∀ k, k ∈ nullDefaultKeys → ∀ kvs,
        dictGet record "attributes" (.obj []) = .ok (.obj kvs) →
        List.lookup k kvs = none → List.lookup k rec = some JVal.null) := by
  unfold transformRecord at hrec
  simp only [exbind_ok, expure_ok] at hrec
  obtain ⟨attrs, ha, jid, hjid, doc, hdoc, mid, hmid, mty, hmty, mdi, hmdi, rti, hrti,
    sta, hsta, rej, hrej, hn, hhn, phn, hphn, hip, hhip, phip, hphip,
    dv, hdv, sv, hsv, ev, hev, dts, hdts, sts, hsts, ets, hets, heq⟩ := hrec
  subst heq
  have hd := tsValue_isSome hdts
  have hs2 := tsValue_isSome hsts
  have he2 := tsValue_isSome hets
  constructor
  · rw [rawTimestampTruthy_eq ha hdv, rawTimestampTruthy_eq ha hsv,
      rawTimestampTruthy_eq ha hev, ← hd, ← hs2, ← he2]
    cases dts <;> cases sts <;> cases ets <;> rfl
  · intro k hk kvs hkvs habs
    rw [ha] at hkvs
    injection hkvs with hkvs2
    subst hkvs2
    simp [nullDefaultKeys] at hk
    rcases hk with rfl | rfl | rfl | rfl | rfl | rfl | rfl | rfl | rfl | rfl | rfl
    · rw [getAttr_absent habs] at hjid; injection hjid with h2; subst h2; rfl
    · rw [getAttr_absent habs] at hmid; injection hmid with h2; subst h2; rfl
    · rw [getAttr_absent habs] at hmty; injection hmty with h2; subst h2; rfl
    · rw [getAttr_absent habs] at hmdi; injection hmdi with h2; subst h2; rfl
    · rw [getAttr_absent habs] at hrti; injection hrti with h2; subst h2; rfl
    · rw [getAttr_absent habs] at hsta; injection hsta with h2; subst h2; rfl
    · rw [getAttr_absent habs] at hrej; injection hrej with h2; subst h2; rfl
    · rw [getAttr_absent habs] at hhn; injection hhn with h2; subst h2; rfl
    · rw [getAttr_absent habs] at hphn; injection hphn with h2; subst h2; rfl
    · rw [getAttr_absent habs] at hhip; injection hhip with h2; subst h2; rfl
    · rw [getAttr_absent habs] at hphip; injection hphip with h2; subst h2; rfl

theorem c3_key_set_witness :
    (cGoodOut.map Prod.fst = baseKeys
        ++ (if rawTimestampTruthy cGoodRecord "DAYTIME" then ["DAYTIME"] else [])
        ++ (if rawTimestampTruthy cGoodRecord "START_TIMESTAMPS" then ["START_TIMESTAMPS"] else [])
        ++ (if rawTimestampTruthy cGoodRecord "END_TIMESTAMPS" then ["END_TIMESTAMPS"] else []))
    ∧ List.lookup "MESSAGE_ID" cGoodOut = some JVal.null :=
  ⟨(c3_key_set "h1" "svc" 0 cGoodRecord cGoodOut rfl).1,
   (c3_key_set "h1" "svc" 0 cGoodRecord cGoodOut rfl).2 "MESSAGE_ID" (by decide)
     [("DATADOG_JOURNAL_ID", .obj [("datavalue", .num 7)]),
      ("DOC_NUMBER", .obj [("datavalue", .str "DOC:123")]),
      ("DAYTIME", .obj [("datavalue", .str "2024-01-01T00:00:00")])] rfl rfl⟩

theorem transform_response_path {host svc : String} {loff : Int} {rd objs : JVal}
    {xs : List JVal}
    (h1 : dictGet rd "objects" (.obj []) = .ok objs)
    (h2 : dictGet objs "ZXC_DATADOG_JOURNAL" (.arr []) = .ok (.arr xs)) :
    transform_response host svc loff rd = transformAll host svc loff xs := by
  simp [transform_response, h1, h2, Bind.bind, Except.bind]

theorem transformAll_spec (host svc : String) (loff : Int) :
    ∀ (xs : List JVal) (l : List (List (String × JVal))),
      transformAll host svc loff xs = .ok l →
      l.length = xs.length
      ∧ ∀ i r, xs.get? i = some r →
          ∃ tr, l.get? i = some tr ∧ transformRecord host svc loff r = .ok tr := by
  intro xs
  induction xs with
  | nil =>
    intro l hl
    rw [show transformAll host svc loff [] = pure [] from rfl, expure_ok] at hl
    subst hl
    exact ⟨rfl, fun i r hir => by simp at hir⟩
  | cons r rs ih =>
    intro l hl
    unfold transformAll at hl
    simp only [exbind_ok, expure_ok] at hl
    obtain ⟨tr, htr, rest, hrest, heq⟩ := hl
    subst heq
    obtain ⟨ihlen, ihget⟩ := ih rest hrest
    refine ⟨by simp [ihlen], ?_⟩
    intro i rr hir
    cases i with
    | zero =>
      simp at hir
      subst hir
      exact ⟨tr, rfl, htr⟩
    | succ n =>
      simp only [List.get?] at hir ⊢
      exact ihget n rr hir

/-- C4 (amended): extracting an empty journal list yields an empty batch,
and whenever the transformation returns at all it returns exactly one
transformed record per raw record, in source order; a record whose
truthy timestamp is malformed makes it raise instead of returning (see
the counterexample). -/
theorem c4_count_and_order (host svc : String) (loff : Int) :
    (∀ rd objs, dictGet rd "objects" (.obj []) = .ok objs →
       dictGet objs "ZXC_DATADOG_JOURNAL" (.arr []) = .ok (.arr []) →
       transform_response host svc loff rd = .ok [])
    ∧ (∀ rd objs xs l, dictGet rd "objects" (.obj []) = .ok objs →
       dictGet objs "ZXC_DATADOG_JOURNAL" (.arr []) = .ok (.arr xs) →
       transform_response host svc loff rd = .ok l →
       l.length = xs.length
       ∧ ∀ i r, xs.get? i = some r →
           ∃ tr, l.get? i = some tr ∧ transformRecord host svc loff r = .ok tr) := by
  constructor
  · intro rd objs h1 h2
    rw [transform_response_path h1 h2]
    rfl
  · intro rd objs xs l h1 h2 h3
    rw [transform_response_path h1 h2] at h3
    exact transformAll_spec host svc loff xs l h3

theorem c4_count_and_order_witness :
    transform_response "h1" "svc" 0 cEmptyPayload = .ok []
    ∧ ([cGoodOut] : List (List (String × JVal))).length = [cGoodRecord].length :=
  ⟨(c4_count_and_order "h1" "svc" 0).1 cEmptyPayload
      (JVal.obj [("ZXC_DATADOG_JOURNAL", JVal.arr [])]) rfl rfl,
   ((c4_count_and_order "h1" "svc" 0).2 cGoodPayload
      (JVal.obj [("ZXC_DATADOG_JOURNAL", JVal.arr [cGoodRecord])])
      [cGoodRecord] [cGoodOut] rfl rfl rfl).1⟩

/-- C4 counterexample: a payload whose journal list holds one record with
a malformed truthy timestamp makes the transformation raise, so it does
not return one transformed record per raw record on every payload. -/
theorem c4_raising_counterexample :
    dictGet (JVal.obj [("ZXC_DATADOG_JOURNAL", JVal.arr [cBadStartRecord])])
        "ZXC_DATADOG_JOURNAL" (JVal.arr []) = .ok (JVal.arr [cBadStartRecord])
    ∧ transform_response "h" "s" 0 cBadStartPayload
        = .error "ValueError: time data does not match format" :=
  ⟨rfl, rfl⟩

/-- C5 (amended): the transformed document number equals the raw value
with every non-overlapping DOC: occurrence removed in one left-to-right
pass, not only a leading one; the removal can itself re-create a leading
DOC: literal, so a transformed document number may still begin with the
literal (see the counterexample). -/
theorem c5_doc_replace (host svc : String) (loff : Int) (record : JVal)
    (rec : List (String × JVal)) (raw : String)
    (hrec : transformRecord host svc loff record = .ok rec)
    (hraw : docRaw record = .ok (.str raw)) :
    List.lookup "DOC_NUMBER" rec = some (.str (pyReplaceDoc raw)) := by
  unfold transformRecord at hrec
  simp only [exbind_ok, expure_ok] at hrec
  obtain ⟨attrs, ha, jid, hjid, doc, hdoc, mid, hmid, mty, hmty, mdi, hmdi, rti, hrti,
    sta, hsta, rej, hrej, hn, hhn, phn, hphn, hip, hhip, phip, hphip,
    dv, hdv, sv, hsv, ev, hev, dts, hdts, sts, hsts, ets, hets, heq⟩ := hrec
  subst heq
  unfold docRaw at hraw
  simp only [exbind_ok] at hraw
  obtain ⟨attrs2, ha2, w, hw, hval⟩ := hraw
  rw [ha] at ha2
  injection ha2 with ha3
  subst ha3
  unfold getDocNumber at hdoc
  simp only [exbind_ok] at hdoc
  obtain ⟨w2, hw2, v, hv, hm⟩ := hdoc
  rw [hw] at hw2
  injection hw2 with hww
  subst hww
  rw [hval] at hv
  injection hv with hvv
  subst hvv
  simp only [Except.ok.injEq] at hm
  subst hm
  rfl

theorem c5_doc_replace_witness :
    List.lookup "DOC_NUMBER" cGoodOut = some (.str (pyReplaceDoc "DOC:123")) :=
  c5_doc_replace "h1" "svc" 0 cGoodRecord cGoodOut "DOC:123" rfl rfl

/-- C5 counterexample: for the raw value DDOC:OC:5, the code produces
DOC:5, while removing a leading DOC: literal would leave the value
unchanged; moreover the produced value itself begins with DOC:, so a
leading DOC: can remain in a transformed record. -/
theorem c5_leading_counterexample :
    transformRecord "h" "s" 0 cDocRecord = .ok cDocOut
    ∧ List.lookup "DOC_NUMBER" cDocOut = some (.str "DOC:5")
    ∧ stripLeadingDoc "DDOC:OC:5" = "DDOC:OC:5"
    ∧ ("DOC:5" = "DDOC:OC:5" → False)
    ∧ leadsWithDoc "DOC:5" = true :=
  ⟨rfl, rfl, rfl, by decide, rfl⟩

theorem getDocNumber_absent {kvs : List (String × JVal)}
    (h : List.lookup "DOC_NUMBER" kvs = none) :
    getDocNumber (.obj kvs) = .ok "" := by
  simp [getDocNumber, dictGet, h, Bind.bind, Except.bind, List.lookup,
    pyReplaceDoc, replaceDocChars]

theorem getDocNumber_dvAbsent {kvs wkvs : List (String × JVal)}
    (hw : List.lookup "DOC_NUMBER" kvs = some (.obj wkvs))
    (h : List.lookup "datavalue" wkvs = none) :
    getDocNumber (.obj kvs) = .ok "" := by
  simp [getDocNumber, dictGet, hw, h, Bind.bind, Except.bind,
    pyReplaceDoc, replaceDocChars]

/-- C10: the document-number transformation removes every non-overlapping
DOC: occurrence anywhere in the raw value, not only a leading one, and a
missing document-number field or missing datavalue wrapper renders as an
empty string under the key, never as null. -/
theorem c10_doc_occurrences (host svc : String) (loff : Int) :
    (∀ record rec kvs, transformRecord host svc loff record = .ok rec →
        dictGet record "attributes" (.obj []) = .ok (.obj kvs) →
        List.lookup "DOC_NUMBER" kvs = none →
        List.lookup "DOC_NUMBER" rec = some (.str ""))
    ∧ (∀ record rec kvs wkvs, transformRecord host svc loff record = .ok rec →
        dictGet record "attributes" (.obj []) = .ok (.obj kvs) →
        List.lookup "DOC_NUMBER" kvs = some (.obj wkvs) →
        List.lookup "datavalue" wkvs = none →
        List.lookup "DOC_NUMBER" rec = some (.str ""))
    ∧ (transformRecord "h" "s" 0 cNonLeadingDocRecord = .ok cNonLeadingDocOut
       ∧ List.lookup "DOC_NUMBER" cNonLeadingDocOut = some (.str "A-X-Y")
       ∧ pyReplaceDoc "A-DOC:X-DOC:Y" = "A-X-Y"
       ∧ stripLeadingDoc "A-DOC:X-DOC:Y" = "A-DOC:X-DOC:Y") := by
  refine ⟨?_, ?_, rfl, rfl, rfl, rfl⟩
  · intro record rec kvs hrec hattrs habs
    unfold transformRecord at hrec
    simp only [exbind_ok, expure_ok] at hrec
    obtain ⟨attrs, ha, jid, hjid, doc, hdoc, mid, hmid, mty, hmty, mdi, hmdi, rti, hrti,
      sta, hsta, rej, hrej, hn, hhn, phn, hphn, hip, hhip, phip, hphip,
      dv, hdv, sv, hsv, ev, hev, dts, hdts, sts, hsts, ets, hets, heq⟩ := hrec
    subst heq
    rw [ha] at hattrs
    injection hattrs with h2
    subst h2
    rw [getDocNumber_absent habs] at hdoc
    injection hdoc with h3
    subst h3
    rfl
  · intro record rec kvs wkvs hrec hattrs hwrap habs
    unfold transformRecord at hrec
    simp only [exbind_ok, expure_ok] at hrec
    obtain ⟨attrs, ha, jid, hjid, doc, hdoc, mid, hmid, mty, hmty, mdi, hmdi, rti, hrti,
      sta, hsta, rej, hrej, hn, hhn, phn, hphn, hip, hhip, phip, hphip,
      dv, hdv, sv, hsv, ev, hev, dts, hdts, sts, hsts, ets, hets, heq⟩ := hrec
    subst heq
    rw [ha] at hattrs
    injection hattrs with h2
    subst h2
    rw [getDocNumber_dvAbsent hwrap habs] at hdoc
    injection hdoc with h3
    subst h3
    rfl

theorem c10_doc_occurrences_witness :
    List.lookup "DOC_NUMBER" cDefaultOut = some (.str "") :=
  (c10_doc_occurrences "h" "s" 0).1 cEmptyDaytimeRecord cDefaultOut
    [("DAYTIME", JVal.obj [("datavalue", JVal.str "")])] rfl rfl rfl

theorem data_append (s t : String) : (s ++ t).data = s.data ++ t.data := by
  cases s; cases t; rfl

theorem afterQ_append {xs : List Char} (ys : List Char) (h : '?' ∉ xs) :
    afterQ (xs ++ '?' :: ys) = some ys := by
  induction xs with
  | nil => simp [afterQ]
  | cons c cs ih =>
    have hc : ¬ c = '?' := fun hc => h (by simp [hc])
    have h2 : '?' ∉ cs := fun hm => h (by simp [hm])
    simp [afterQ, hc, ih h2]

theorem splitAmp_no {xs : List Char} (h : '&' ∉ xs) : splitAmp xs = [xs] := by
  induction xs with
  | nil => rfl
  | cons c cs ih =>
    have hc : ¬ c = '&' := fun hc => h (by simp [hc])
    have h2 : '&' ∉ cs := fun hm => h (by simp [hm])
    simp [splitAmp, hc, ih h2]

theorem splitAmp_append {xs : List Char} (ys : List Char) (h : '&' ∉ xs) :
    splitAmp (xs ++ '&' :: ys) = xs :: splitAmp ys := by
  induction xs with
  | nil => simp [splitAmp]
  | cons c cs ih =>
    have hc : ¬ c = '&' := fun hc => h (by simp [hc])
    have h2 : '&' ∉ cs := fun hm => h (by simp [hm])
    simp [splitAmp, hc, ih h2]

theorem splitAmp_join : ∀ (l : List String), (∀ s ∈ l, '&' ∉ s.data) → l ≠ [] →
    splitAmp (amp_join l).data = l.map String.data := by
  intro l
  induction l with
  | nil => intro _ hne; exact absurd rfl hne
  | cons s rest ih =>
    intro hall _
    cases rest with
    | nil => simp [amp_join, splitAmp_no (hall s (by simp))]
    | cons t ts =>
      have hs : '&' ∉ s.data := hall s (by simp)
      have hrest : ∀ x ∈ t :: ts, '&' ∉ x.data := fun x hx => hall x (by simp [hx])
      have hdata : (amp_join (s :: t :: ts)).data
          = s.data ++ '&' :: (amp_join (t :: ts)).data := by
        rw [show amp_join (s :: t :: ts) = s ++ "&" ++ amp_join (t :: ts) from rfl,
          data_append, data_append]
        simp
      rw [hdata, splitAmp_append _ hs, ih hrest (by simp)]
      rfl

theorem build_url_data (base qa sm : String) (qcs : List String) :
    (build_query_url base qa sm qcs).data
      = base.data ++ '?' :: (("qa=" ++ qa).data
          ++ '&' :: (("stripmeta=" ++ sm).data
          ++ '&' :: (amp_join (qcs.map (fun qc => "qc=" ++ qc))).data)) := by
  simp [build_query_url, data_append]

theorem urlParams_build (base qa sm : String) (qcs : List String)
    (hb : '?' ∉ base.data) (hqa : '&' ∉ qa.data) (hsm : '&' ∉ sm.data)
    (hqc : ∀ c ∈ qcs, '&' ∉ c.data) :
    urlParams (build_query_url base qa sm qcs)
      = ("qa=" ++ qa).data :: ("stripmeta=" ++ sm).data
          :: (if qcs = [] then [[]]
              else qcs.map (fun c => ("qc=" ++ c).data)) := by
  have hqaP : '&' ∉ ("qa=" ++ qa).data := by
    rw [data_append]
    intro hm
    rcases List.mem_append.mp hm with hm1 | hm2
    · simp at hm1
    · exact hqa hm2
  have hsmP : '&' ∉ ("stripmeta=" ++ sm).data := by
    rw [data_append]
    intro hm
    rcases List.mem_append.mp hm with hm1 | hm2
    · simp at hm1
    · exact hsm hm2
  have hL : ∀ s ∈ qcs.map (fun qc => "qc=" ++ qc), '&' ∉ s.data := by
    intro s hs
    rcases List.mem_map.mp hs with ⟨c, hc, rfl⟩
    rw [data_append]
    intro hm
    rcases List.mem_append.mp hm with hm1 | hm2
    · simp at hm1
    · exact hqc c hc hm2
  unfold urlParams
  rw [build_url_data, afterQ_append _ hb]
  show splitAmp (("qa=" ++ qa).data
      ++ '&' :: (("stripmeta=" ++ sm).data
      ++ '&' :: (amp_join (qcs.map (fun qc => "qc=" ++ qc))).data)) = _
  rw [splitAmp_append _ hqaP, splitAmp_append _ hsmP]
  cases hq : qcs with
  | nil => simp [amp_join, splitAmp]
  | cons c cs =>
    rw [hq] at hL
    rw [splitAmp_join _ hL (by simp)]
    simp

theorem filter_map_false {α β : Type} (p : β → Bool) (f : α → β)
    (hf : ∀ a, p (f a) = false) : ∀ l : List α, (l.map f).filter p = [] := by
  intro l
  induction l with
  | nil => rfl
  | cons a l ih => simp [List.filter, hf, ih]

theorem filter_map_true {α β : Type} (p : β → Bool) (f : α → β)
    (hf : ∀ a, p (f a) = true) : ∀ l : List α, (l.map f).filter p = l.map f := by
  intro l
  induction l with
  | nil => rfl
  | cons a l ih => simp [List.filter, hf, ih]

/-- C7 (amended): provided the base URL contains no question mark or
ampersand characters, and qa, stripmeta and the conditions contain no
ampersand, the produced URL has exactly one qa parameter, exactly one
stripmeta parameter, and exactly one qc parameter per condition, in input
order with the condition as its value; without those side conditions a
condition can inject extra parameters (see the counterexample). -/
theorem c7_query_params (base qa sm : String) (qcs : List String)
    (hb : '?' ∉ base.data) (hqa : '&' ∉ qa.data) (hsm : '&' ∉ sm.data)
    (hqc : ∀ c ∈ qcs, '&' ∉ c.data) :
    (urlParams (build_query_url base qa sm qcs)).filter
        (fun p => paramKeyOf p == "qa".data) = [("qa=" ++ qa).data]
    ∧ (urlParams (build_query_url base qa sm qcs)).filter
        (fun p => paramKeyOf p == "stripmeta".data) = [("stripmeta=" ++ sm).data]
    ∧ ((urlParams (build_query_url base qa sm qcs)).filter
        (fun p => paramKeyOf p == "qc".data)).map paramValueOf = qcs.map String.data
    ∧ (urlParams (build_query_url base qa sm qcs)).countP
        (fun p => paramKeyOf p == "qc".data) = qcs.length := by
  rw [urlParams_build base qa sm qcs hb hqa hsm hqc]
  have hA : ("qa=" ++ qa).data = 'q' :: 'a' :: '=' :: qa.data := by
    rw [data_append]; rfl
  have hB : ("stripmeta=" ++ sm).data
      = 's' :: 't' :: 'r' :: 'i' :: 'p' :: 'm' :: 'e' :: 't' :: 'a' :: '=' :: sm.data := by
    rw [data_append]; rfl
  have hC : ∀ c : String, ("qc=" ++ c).data = 'q' :: 'c' :: '=' :: c.data := by
    intro c; rw [data_append]; rfl
  have b1 : ∀ r : List Char, (paramKeyOf ('q' :: 'a' :: '=' :: r) == ['q', 'a']) = true :=
    fun _ => rfl
  have b2 : ∀ r : List Char,
      (paramKeyOf ('s' :: 't' :: 'r' :: 'i' :: 'p' :: 'm' :: 'e' :: 't' :: 'a' :: '=' :: r)
        == ['q', 'a']) = false := fun _ => rfl
  have b3 : ∀ r : List Char, (paramKeyOf ('q' :: 'c' :: '=' :: r) == ['q', 'a']) = false :=
    fun _ => rfl
  have b4 : ∀ r : List Char, (paramKeyOf ('q' :: 'a' :: '=' :: r) == ['s', 't', 'r', 'i', 'p', 'm', 'e', 't', 'a']) = false :=
    fun _ => rfl
  have b5 : ∀ r : List Char,
      (paramKeyOf ('s' :: 't' :: 'r' :: 'i' :: 'p' :: 'm' :: 'e' :: 't' :: 'a' :: '=' :: r)
        == ['s', 't', 'r', 'i', 'p', 'm', 'e', 't', 'a']) = true := fun _ => rfl
  have b6 : ∀ r : List Char, (paramKeyOf ('q' :: 'c' :: '=' :: r) == ['s', 't', 'r', 'i', 'p', 'm', 'e', 't', 'a']) = false :=
    fun _ => rfl
  have b7 : ∀ r : List Char, (paramKeyOf ('q' :: 'a' :: '=' :: r) == ['q', 'c']) = false :=
    fun _ => rfl
  have b8 : ∀ r : List Char,
      (paramKeyOf ('s' :: 't' :: 'r' :: 'i' :: 'p' :: 'm' :: 'e' :: 't' :: 'a' :: '=' :: r)
        == ['q', 'c']) = false := fun _ => rfl
  have b9 : ∀ r : List Char, (paramKeyOf ('q' :: 'c' :: '=' :: r) == ['q', 'c']) = true :=
    fun _ => rfl
  rw [hA, hB]
  simp only [hC]
  cases qcs with
  | nil => exact ⟨rfl, rfl, rfl, rfl⟩
  | cons c cs =>
    have hqcfilter : (('q' :: 'a' :: '=' :: qa.data) ::
          ('s' :: 't' :: 'r' :: 'i' :: 'p' :: 'm' :: 'e' :: 't' :: 'a' :: '=' :: sm.data) ::
          List.map (fun c : String => 'q' :: 'c' :: '=' :: c.data) (c :: cs)).filter
          (fun p => paramKeyOf p == "qc".data)
        = List.map (fun c : String => 'q' :: 'c' :: '=' :: c.data) (c :: cs) := by
      simp [List.filter, b7, b8, b9,
        filter_map_true (fun p => paramKeyOf p == "qc".data)
          (fun a : String => 'q' :: 'c' :: '=' :: a.data) (fun a => b9 a.data)]
    refine ⟨?_, ?_, ?_, ?_⟩
    · simp [List.filter, b1, b2, b3,
        filter_map_false (fun p => paramKeyOf p == "qa".data)
          (fun a : String => 'q' :: 'c' :: '=' :: a.data) (fun a => b3 a.data)]
    · simp [List.filter, b4, b5, b6,
        filter_map_false (fun p => paramKeyOf p == "stripmeta".data)
          (fun a : String => 'q' :: 'c' :: '=' :: a.data) (fun a => b6 a.data)]
    · simp only [if_neg (by simp : ¬ (c :: cs : List String) = [])]
      rw [hqcfilter, List.map_map]
      rfl
    · simp only [if_neg (by simp : ¬ (c :: cs : List String) = [])]
      rw [List.countP_eq_length_filter, hqcfilter]
      simp


/-- C7 counterexample: the components are interpolated without escaping,
so a condition containing an ampersand injects a second qa parameter and
a base URL containing a question mark displaces the query entirely. -/
theorem c7_injection_counterexample :
    (urlParams (build_query_url "http://h" "a" "true" ["x&qa=evil"])).countP
        (fun p => paramKeyOf p == "qa".data) = 2
    ∧ (urlParams (build_query_url "http://h?x" "a" "true" ["c"])).countP
        (fun p => paramKeyOf p == "qa".data) = 0 :=
  ⟨by decide, by decide⟩

theorem c7_query_params_witness :
    (urlParams (build_query_url "http://data" "qa1" "true"
        ["DAYTIME,<=,2024-01-01T00:00:00", "DAYTIME,>,2023-12-31T23:55:00"])).filter
        (fun p => paramKeyOf p == "qa".data) = [("qa=" ++ "qa1").data]
    ∧ (urlParams (build_query_url "http://data" "qa1" "true"
        ["DAYTIME,<=,2024-01-01T00:00:00", "DAYTIME,>,2023-12-31T23:55:00"])).filter
        (fun p => paramKeyOf p == "stripmeta".data) = [("stripmeta=" ++ "true").data]
    ∧ ((urlParams (build_query_url "http://data" "qa1" "true"
        ["DAYTIME,<=,2024-01-01T00:00:00", "DAYTIME,>,2023-12-31T23:55:00"])).filter
        (fun p => paramKeyOf p == "qc".data)).map paramValueOf
      = (["DAYTIME,<=,2024-01-01T00:00:00", "DAYTIME,>,2023-12-31T23:55:00"] : List String).map
          String.data
    ∧ (urlParams (build_query_url "http://data" "qa1" "true"
        ["DAYTIME,<=,2024-01-01T00:00:00", "DAYTIME,>,2023-12-31T23:55:00"])).countP
        (fun p => paramKeyOf p == "qc".data)
      = (["DAYTIME,<=,2024-01-01T00:00:00", "DAYTIME,>,2023-12-31T23:55:00"] : List String).length :=
  c7_query_params "http://data" "qa1" "true"
    ["DAYTIME,<=,2024-01-01T00:00:00", "DAYTIME,>,2023-12-31T23:55:00"]
    (by decide) (by decide) (by decide) (by decide)
